import Mathlib

/-!
Verification development for the Spotify listening-dashboard pipeline
(`main.py`): format detection, normalization of the extended export format,
data cleaning, feature derivation, session segmentation, KPI aggregation and
context-document generation, shallowly embedded as executable Lean functions.
Timestamps are modelled at minute precision (the precision the pipeline keeps),
floating-point quantities as exact rationals.
-/

/-- Calendar timestamp at second precision, as produced by timestamp parsing. -/
structure DateTime where
  year : Nat
  month : Nat
  day : Nat
  hour : Nat
  minute : Nat
  second : Nat
deriving DecidableEq, Repr

/-- Days since 1970-01-01 of a civil date (standard civil-from-days inverse). -/
def daysFromCivil (y m d : Int) : Int :=
  let y2 : Int := if m ≤ 2 then y - 1 else y
  let era : Int := (if 0 ≤ y2 then y2 else y2 - 399) / 400
  let yoe : Int := y2 - era * 400
  let mp : Int := (m + 9) % 12
  let doy : Int := (153 * mp + 2) / 5 + d - 1
  let doe : Int := yoe * 365 + yoe / 4 - yoe / 100 + doy
  era * 146097 + doe - 719468

/-- Epoch day number of a `DateTime`. -/
def DateTime.epochDays (t : DateTime) : Int :=
  daysFromCivil t.year t.month t.day

/-- Minutes since the epoch; differences of pipeline timestamps are exact
multiples of a minute, so this determines `total_seconds` of any difference. -/
def DateTime.epochMinutes (t : DateTime) : Int :=
  t.epochDays * 1440 + t.hour * 60 + t.minute

/-- Seconds since the epoch (the pipeline's timestamps carry zero seconds
after truncation to minute precision, so `second` is ignored downstream). -/
def DateTime.epochSeconds (t : DateTime) : Int :=
  t.epochMinutes * 60

/-- Weekday index with Monday = 0 (1970-01-01 was a Thursday, index 3). -/
def DateTime.weekdayIndex (t : DateTime) : Nat :=
  ((t.epochDays + 3) % 7).toNat

/-- English day name, as `pandas` `Series.dt.day_name` produces. -/
def dayNameOfIndex (i : Nat) : String :=
  match i with
  | 0 => "Monday"
  | 1 => "Tuesday"
  | 2 => "Wednesday"
  | 3 => "Thursday"
  | 4 => "Friday"
  | 5 => "Saturday"
  | _ => "Sunday"

/-- Day name of a timestamp. -/
def DateTime.dayName (t : DateTime) : String :=
  dayNameOfIndex t.weekdayIndex

/-- Numeric value of a decimal digit character, `none` otherwise. -/
def digitVal (c : Char) : Option Nat :=
  if c.isDigit then some (c.toNat - 48) else none

/-- Two-digit decimal number from two digit characters. -/
def twoDigits (a b : Char) : Option Nat :=
  match digitVal a, digitVal b with
  | some x, some y => some (x * 10 + y)
  | _, _ => none

/-- Four-digit decimal number from four digit characters. -/
def fourDigits (a b c d : Char) : Option Nat :=
  match digitVal a, digitVal b, digitVal c, digitVal d with
  | some x, some y, some z, some w => some (((x * 10 + y) * 10 + z) * 10 + w)
  | _, _, _, _ => none

/-- Parse an ISO-8601 UTC timestamp of the shape `YYYY-MM-DDTHH:MM:SSZ`, the
shape of the extended export's `ts` field; models `pd.to_datetime` restricted
to that input shape. -/
def parseISO8601 (s : String) : Option DateTime :=
  match s.data with
  | [y1, y2, y3, y4, '-', m1, m2, '-', d1, d2, 'T',
     h1, h2, ':', n1, n2, ':', s1, s2, 'Z'] =>
    match fourDigits y1 y2 y3 y4, twoDigits m1 m2, twoDigits d1 d2,
          twoDigits h1 h2, twoDigits n1 n2, twoDigits s1 s2 with
    | some y, some mo, some d, some h, some n, some sec =>
      some ⟨y, mo, d, h, n, sec⟩
    | _, _, _, _, _, _ => none
  | _ => none

/-- Parse a minute-precision timestamp of the shape `YYYY-MM-DD HH:MM`, the
shape of the legacy export's `endTime` field and of normalized `endTime`
strings; models `pd.to_datetime` restricted to that input shape. -/
def parseMinute (s : String) : Option DateTime :=
  match s.data with
  | [y1, y2, y3, y4, '-', m1, m2, '-', d1, d2, ' ', h1, h2, ':', n1, n2] =>
    match fourDigits y1 y2 y3 y4, twoDigits m1 m2, twoDigits d1 d2,
          twoDigits h1 h2, twoDigits n1 n2 with
    | some y, some mo, some d, some h, some n => some ⟨y, mo, d, h, n, 0⟩
    | _, _, _, _, _ => none
  | _ => none

/-- Decimal rendering of a natural, padded to width 2 with a leading zero. -/
def pad2 (n : Nat) : String :=
  if n < 10 then "0" ++ toString n else toString n

/-- Decimal rendering of a natural, padded to width 4 with leading zeros. -/
def pad4 (n : Nat) : String :=
  if n < 10 then "000" ++ toString n
  else if n < 100 then "00" ++ toString n
  else if n < 1000 then "0" ++ toString n
  else toString n

/-- `strftime("%Y-%m-%d %H:%M")`: minute-precision rendering of a timestamp. -/
def formatMinute (t : DateTime) : String :=
  pad4 t.year ++ "-" ++ pad2 t.month ++ "-" ++ pad2 t.day ++ " " ++
    pad2 t.hour ++ ":" ++ pad2 t.minute

/-- `date()` rendering `YYYY-MM-DD` of a timestamp. -/
def formatDate (t : DateTime) : String :=
  pad4 t.year ++ "-" ++ pad2 t.month ++ "-" ++ pad2 t.day

/-- A raw export record, modelled as the known keys of the two schema
variants with `none` for an absent key (dict-membership probes become
`Option.isSome`). -/
structure RawRecord where
  endTime : Option String := none
  artistName : Option String := none
  trackName : Option String := none
  msPlayed : Option Int := none
  ts : Option String := none
  master_metadata_album_artist_name : Option String := none
  master_metadata_track_name : Option String := none
  ms_played : Option Int := none
deriving DecidableEq, Repr

/-- The detection outcome of `detect_file_format`. -/
inductive FileFormat where
  | new
  | old
  | unknown
deriving DecidableEq, Repr

/-- `detect_file_format` applied to a single record: probe for `ts` and
`master_metadata_track_name`, else for `endTime` and `trackName`. -/
def detectRecordFormat (r : RawRecord) : FileFormat :=
  if r.ts.isSome ∧ r.master_metadata_track_name.isSome then .new
  else if r.endTime.isSome ∧ r.trackName.isSome then .old
  else .unknown

/-- `detect_file_format`: the batch's format is decided by its first record
(`data[0]`; the empty batch, on which the source indexing fails, is `none`). -/
def detect_file_format (data : List RawRecord) : Option FileFormat :=
  data.head?.map detectRecordFormat

/-- A canonical listening event: the legacy shape every batch is brought to. -/
structure CanonicalEvent where
  endTime : String
  artistName : Option String
  trackName : Option String
  msPlayed : Int
deriving DecidableEq, Repr

/-- One record of `convert_new_format_to_old_format`'s loop body:
`ts` is parsed and reformatted to minute precision (`none` when `ts` is
missing or unparseable, where the source raises), the two metadata fields
pass through with `None` defaults, `ms_played` defaults to 0. -/
def convertRecord (r : RawRecord) : Option CanonicalEvent :=
  match r.ts with
  | none => none
  | some s =>
    (parseISO8601 s).map fun t =>
      { endTime := formatMinute t
        artistName := r.master_metadata_album_artist_name
        trackName := r.master_metadata_track_name
        msPlayed := r.ms_played.getD 0 }

/-- `convert_new_format_to_old_format` over a batch: every record converted,
`none` when some record makes the source raise. -/
def convert_new_format_to_old_format (new_data : List RawRecord) :
    Option (List CanonicalEvent) :=
  new_data.mapM convertRecord

/-- The legacy branch (`pd.DataFrame(file_data)`): fields pass through
unchanged; modelled for records that carry `endTime` and `msPlayed`
(an absent field would surface as NaN in the frame, which no claim relies on). -/
def legacyToCanonical (r : RawRecord) : Option CanonicalEvent :=
  match r.endTime, r.msPlayed with
  | some e, some m => some ⟨e, r.artistName, r.trackName, m⟩
  | _, _ => none

/-- Pipeline error taxonomy: `UnknownFormat` (first-record probe fails),
`InvalidTimestamp` (timestamp parsing raises), `NoData` (an aggregation,
`idxmax`-style, is asked of an empty frame). -/
inductive PipelineError where
  | UnknownFormat
  | InvalidTimestamp
  | NoData
deriving DecidableEq, Repr

/-- A derived event: the cleaned canonical event with the parsed timestamp
and the per-event columns added by the Data Cleaning block. -/
structure DerivedEvent where
  endTime : DateTime
  artistName : Option String
  trackName : Option String
  msPlayed : Int
  hour : Nat
  day_of_week : String
  duration_minutes : ℚ
  month : Nat
deriving DecidableEq, Repr

/-- The per-event column assignments of the Data Cleaning block:
`hour`, `day_of_week`, `duration_minutes = msPlayed / 60000`, `month`. -/
def mkDerived (p : CanonicalEvent × DateTime) : DerivedEvent :=
  { endTime := p.2
    artistName := p.1.artistName
    trackName := p.1.trackName
    msPlayed := p.1.msPlayed
    hour := p.2.hour
    day_of_week := p.2.dayName
    duration_minutes := (p.1.msPlayed : ℚ) / 60000
    month := p.2.month }

/-- `df['endTime'] = pd.to_datetime(df['endTime'])`: every event's timestamp
parsed; a malformed timestamp makes the whole call raise (`InvalidTimestamp`). -/
def parseAllTimes (evs : List CanonicalEvent) :
    Except PipelineError (List (CanonicalEvent × DateTime)) :=
  evs.mapM fun e =>
    match parseMinute e.endTime with
    | some t => .ok (e, t)
    | none => .error .InvalidTimestamp

/-- The Data Cleaning block, lines 100-105: parse all timestamps, keep only
events with `msPlayed > 0`, add the derived columns. -/
def deriveEvents (evs : List CanonicalEvent) :
    Except PipelineError (List DerivedEvent) :=
  match parseAllTimes evs with
  | .error e => .error e
  | .ok parsed => .ok ((parsed.filter fun p => p.1.msPlayed > 0).map mkDerived)

/-- Inter-event time differences against the previous row, seconds
(`endTime - endTime.shift()`), tail of a nonempty list. -/
def deltasFromPrev (prev : Int) : List Int → List Int
  | [] => []
  | t :: ts => (t - prev) :: deltasFromPrev t ts

/-- `(df['endTime'] - df['endTime'].shift()).dt.total_seconds().fillna(0)`:
the first row's NaN difference filled with 0. -/
def session_deltas (ts : List Int) : List Int :=
  match ts with
  | [] => []
  | t :: rest => 0 :: deltasFromPrev t rest

/-- `(df['endTime'] - df['endTime'].shift(1)).dt.total_seconds() > 1800`:
the first row's NaN difference compares false. -/
def sessionFlagsNaN (ts : List Int) : List Bool :=
  match ts with
  | [] => []
  | t :: rest => false :: (deltasFromPrev t rest).map (fun g => g > 1800)

/-- Running (inclusive) prefix sums from an accumulator. -/
def cumsumFrom (acc : Nat) : List Nat → List Nat
  | [] => []
  | x :: xs => (acc + x) :: cumsumFrom (acc + x) xs

/-- `Series.cumsum()` over naturals. -/
def cumsum (l : List Nat) : List Nat :=
  cumsumFrom 0 l

/-- Session ids of the second segmentation block, lines 225-226:
`(session_deltas > 1800).cumsum()`. -/
def session_ids (ts : List Int) : List Nat :=
  cumsum ((session_deltas ts).map fun g => if g > 1800 then 1 else 0)

/-- Session ids of the first segmentation block, lines 208-209:
`df['session'] = gap > 1800` (NaN comparing false) then
`df['session'].cumsum()` as the grouping key. -/
def session_ids_first (ts : List Int) : List Nat :=
  cumsum ((sessionFlagsNaN ts).map fun b => if b then 1 else 0)

/-- The session-segmentation algorithm stated by the spec, running form:
carry the current id, increment it when the gap to the previous event
strictly exceeds 1800 seconds. -/
def runIdsFrom (cur : Nat) (prev : Int) : List Int → List Nat
  | [] => []
  | t :: ts =>
    let cur2 := if t - prev > 1800 then cur + 1 else cur
    cur2 :: runIdsFrom cur2 t ts

/-- Spec algorithm (§4.3): id 0 to the first event, then a single
left-to-right pass incrementing on each gap crossing. -/
def sessionIdsRun (ts : List Int) : List Nat :=
  match ts with
  | [] => []
  | t :: rest => 0 :: runIdsFrom 0 t rest

/-- Lexicographic order on character lists by code point (Python string
comparison). -/
def charsLe : List Char → List Char → Bool
  | [], _ => true
  | _ :: _, [] => false
  | c :: cs, d :: ds =>
    if c.toNat < d.toNat then true
    else if c.toNat = d.toNat then charsLe cs ds
    else false

/-- Python string `<=`. -/
def strLe (a b : String) : Bool :=
  charsLe a.data b.data

/-- Order on `Nat` keys (hour, month, session-id group keys). -/
def natLe (a b : Nat) : Bool :=
  a ≤ b

/-- Lexicographic order on `(month, name)` group keys, as a sorted pandas
MultiIndex orders them. -/
def monthNameLe (a b : Nat × String) : Bool :=
  if a.1 < b.1 then true
  else if a.1 = b.1 then strLe a.2 b.2
  else false

/-- Lexicographic order on `(year, month, day)` date keys. -/
def dateLe (a b : Nat × Nat × Nat) : Bool :=
  if a.1 < b.1 then true
  else if a.1 = b.1 then
    if a.2.1 < b.2.1 then true
    else if a.2.1 = b.2.1 then a.2.2 ≤ b.2.2
    else false
  else false

/-- Stable insertion into a list sorted by `le`. -/
def insertByLe (le : α → α → Bool) (x : α) : List α → List α
  | [] => [x]
  | y :: ys => if le y x then y :: insertByLe le x ys else x :: y :: ys

/-- Stable insertion sort by `le`. -/
def sortByLe (le : α → α → Bool) : List α → List α
  | [] => []
  | x :: xs => insertByLe le x (sortByLe le xs)

/-- Sum of the values attached to a given key. -/
def sumForKey [DecidableEq κ] (k : κ) (pairs : List (κ × ℚ)) : ℚ :=
  ((pairs.filter fun p => p.1 = k).map Prod.snd).sum

/-- `groupby(key)[col].sum()` with pandas' default `sort=True`: the distinct
keys in sorted order, each with the sum of its group's values. -/
def groupSumSorted [DecidableEq κ] (le : κ → κ → Bool)
    (pairs : List (κ × ℚ)) : List (κ × ℚ) :=
  (sortByLe le (pairs.map Prod.fst).dedup).map fun k => (k, sumForKey k pairs)

/-- `Series.idxmax` materialised as the full `(key, value)` pair: the first
pair whose value no later pair strictly exceeds; `none` on an empty series
(where pandas raises). -/
def idxmaxPair : List (κ × ℚ) → Option (κ × ℚ)
  | [] => none
  | p :: rest =>
    match idxmaxPair rest with
    | none => some p
    | some q => if q.2 > p.2 then some q else some p

/-- `Series.idxmin` materialised as the full `(key, value)` pair. -/
def idxminPair : List (κ × ℚ) → Option (κ × ℚ)
  | [] => none
  | p :: rest =>
    match idxminPair rest with
    | none => some p
    | some q => if q.2 < p.2 then some q else some p

/-- `Series.max` over the values of a keyed series. -/
def maxVal (pairs : List (κ × ℚ)) : Option ℚ :=
  (idxmaxPair pairs).map Prod.snd

/-- `Series.min` over the values of a keyed series. -/
def minVal (pairs : List (κ × ℚ)) : Option ℚ :=
  (idxminPair pairs).map Prod.snd

/-- `Series.mean` of a list of rationals; pandas yields NaN on an empty
series, a value outside ℚ, rendered here as 0 (no claim evaluates it there). -/
def qmean (l : List ℚ) : ℚ :=
  if l.length = 0 then 0 else l.sum / l.length

/-- `Series.nlargest(n)`: the values sorted descending (stably), first `n`. -/
def nlargestVals (n : Nat) (pairs : List (κ × ℚ)) : List ℚ :=
  (sortByLe (fun a b => b ≤ a) (pairs.map Prod.snd)).take n

/-- `(hour, duration_minutes)` rows. -/
def hourPairs (ds : List DerivedEvent) : List (Nat × ℚ) :=
  ds.map fun d => (d.hour, d.duration_minutes)

/-- `(day_of_week, duration_minutes)` rows. -/
def dayPairs (ds : List DerivedEvent) : List (String × ℚ) :=
  ds.map fun d => (d.day_of_week, d.duration_minutes)

/-- `(month, duration_minutes)` rows. -/
def monthPairs (ds : List DerivedEvent) : List (Nat × ℚ) :=
  ds.map fun d => (d.month, d.duration_minutes)

/-- `(endTime.date(), duration_minutes)` rows. -/
def datePairs (ds : List DerivedEvent) : List ((Nat × Nat × Nat) × ℚ) :=
  ds.map fun d => ((d.endTime.year, d.endTime.month, d.endTime.day),
                   d.duration_minutes)

/-- `(artistName, duration_minutes)` rows; a null artist is dropped, as
`groupby` drops NaN keys. -/
def artistPairs (ds : List DerivedEvent) : List (String × ℚ) :=
  ds.filterMap fun d => d.artistName.map fun a => (a, d.duration_minutes)

/-- `(trackName, duration_minutes)` rows; a null track is dropped. -/
def trackPairs (ds : List DerivedEvent) : List (String × ℚ) :=
  ds.filterMap fun d => d.trackName.map fun a => (a, d.duration_minutes)

/-- `((month, artistName), duration_minutes)` rows for the two-level group. -/
def monthArtistPairs (ds : List DerivedEvent) : List ((Nat × String) × ℚ) :=
  ds.filterMap fun d => d.artistName.map fun a => ((d.month, a),
    d.duration_minutes)

/-- `((month, trackName), duration_minutes)` rows for the two-level group. -/
def monthTrackPairs (ds : List DerivedEvent) : List ((Nat × String) × ℚ) :=
  ds.filterMap fun d => d.trackName.map fun a => ((d.month, a),
    d.duration_minutes)

/-- `df.groupby('hour')['duration_minutes'].sum()`. -/
def hour_groups (ds : List DerivedEvent) : List (Nat × ℚ) :=
  groupSumSorted natLe (hourPairs ds)

/-- `df.groupby('day_of_week')['duration_minutes'].sum()`. -/
def day_groups (ds : List DerivedEvent) : List (String × ℚ) :=
  groupSumSorted (fun a b => strLe a b) (dayPairs ds)

/-- `df.groupby('month')['duration_minutes'].sum()`. -/
def month_groups (ds : List DerivedEvent) : List (Nat × ℚ) :=
  groupSumSorted natLe (monthPairs ds)

/-- `df.groupby(df['endTime'].dt.date)['duration_minutes'].sum()`. -/
def date_groups (ds : List DerivedEvent) : List ((Nat × Nat × Nat) × ℚ) :=
  groupSumSorted dateLe (datePairs ds)

/-- `df.groupby('artistName')['duration_minutes'].sum()`. -/
def artist_groups (ds : List DerivedEvent) : List (String × ℚ) :=
  groupSumSorted (fun a b => strLe a b) (artistPairs ds)

/-- `df.groupby('trackName')['duration_minutes'].sum()`. -/
def track_groups (ds : List DerivedEvent) : List (String × ℚ) :=
  groupSumSorted (fun a b => strLe a b) (trackPairs ds)

/-- `df.groupby(['month', 'artistName'])['duration_minutes'].sum()`. -/
def month_artist_groups (ds : List DerivedEvent) : List ((Nat × String) × ℚ) :=
  groupSumSorted monthNameLe (monthArtistPairs ds)

/-- `df.groupby(['month', 'trackName'])['duration_minutes'].sum()`. -/
def month_track_groups (ds : List DerivedEvent) : List ((Nat × String) × ℚ) :=
  groupSumSorted monthNameLe (monthTrackPairs ds)

/-- `total_hours = df['duration_minutes'].sum() / 60`. -/
def total_hours (ds : List DerivedEvent) : ℚ :=
  (ds.map fun d => d.duration_minutes).sum / 60

/-- `unique_artists = df['artistName'].nunique()` (`nunique` skips NaN). -/
def unique_artists (ds : List DerivedEvent) : Nat :=
  (ds.filterMap fun d => d.artistName).dedup.length

/-- `unique_songs = df['trackName'].nunique()`. -/
def unique_songs (ds : List DerivedEvent) : Nat :=
  (ds.filterMap fun d => d.trackName).dedup.length

/-- `most_active_hour = df.groupby('hour')['duration_minutes'].sum().idxmax()`. -/
def most_active_hour (ds : List DerivedEvent) : Option Nat :=
  (idxmaxPair (hour_groups ds)).map Prod.fst

/-- `most_active_day = df.groupby('day_of_week')[...].sum().idxmax()`. -/
def most_active_day (ds : List DerivedEvent) : Option String :=
  (idxmaxPair (day_groups ds)).map Prod.fst

/-- `date_range_start = df['endTime'].min().date()`, rendered `YYYY-MM-DD`. -/
def date_range_start (ds : List DerivedEvent) : Option String :=
  (idxminPair (ds.map fun d => (d.endTime, (d.endTime.epochMinutes : ℚ)))).map
    fun p => formatDate p.1

/-- `date_range_end = df['endTime'].max().date()`, rendered `YYYY-MM-DD`. -/
def date_range_end (ds : List DerivedEvent) : Option String :=
  (idxmaxPair (ds.map fun d => (d.endTime, (d.endTime.epochMinutes : ℚ)))).map
    fun p => formatDate p.1

/-- `avg_listens_per_day`: mean of the per-date duration sums. -/
def avg_listens_per_day (ds : List DerivedEvent) : ℚ :=
  qmean ((date_groups ds).map Prod.snd)

/-- `avg_listens_per_month`: mean of the per-month duration sums. -/
def avg_listens_per_month (ds : List DerivedEvent) : ℚ :=
  qmean ((month_groups ds).map Prod.snd)

/-- `avg_listens_per_hour`: mean of the per-hour duration sums. -/
def avg_listens_per_hour (ds : List DerivedEvent) : ℚ :=
  qmean ((hour_groups ds).map Prod.snd)

/-- `highest_month = df.groupby('month')[...].sum().idxmax()`. -/
def highest_month (ds : List DerivedEvent) : Option Nat :=
  (idxmaxPair (month_groups ds)).map Prod.fst

/-- `lowest_month = df.groupby('month')[...].sum().idxmin()`. -/
def lowest_month (ds : List DerivedEvent) : Option Nat :=
  (idxminPair (month_groups ds)).map Prod.fst

/-- `weekday_playtime`: summed duration of Monday-Friday events. -/
def weekday_playtime (ds : List DerivedEvent) : ℚ :=
  ((ds.filter fun d =>
      d.day_of_week ∈ ["Monday", "Tuesday", "Wednesday", "Thursday", "Friday"]).map
    fun d => d.duration_minutes).sum

/-- `weekend_playtime`: summed duration of Saturday-Sunday events. -/
def weekend_playtime (ds : List DerivedEvent) : ℚ :=
  ((ds.filter fun d => d.day_of_week ∈ ["Saturday", "Sunday"]).map
    fun d => d.duration_minutes).sum

/-- The fully-played threshold, `(3 * 60 * 1000) * 0.8` milliseconds. -/
def fullyPlayedThreshold : ℚ :=
  (3 * 60 * 1000) * (8 / 10)

/-- `fully_played = len(df[df['msPlayed'] >= (3*60*1000)*0.8])`. -/
def fully_played (ds : List DerivedEvent) : Nat :=
  (ds.filter fun d => (d.msPlayed : ℚ) ≥ fullyPlayedThreshold).length

/-- `len(df[df['msPlayed'] < (3*60*1000)*0.8])`, the remaining events. -/
def not_fully_played (ds : List DerivedEvent) : Nat :=
  (ds.filter fun d => (d.msPlayed : ℚ) < fullyPlayedThreshold).length

/-- `fully_played_percentage = fully_played / len(df) * 100`. -/
def fully_played_percentage (ds : List DerivedEvent) : ℚ :=
  (fully_played ds : ℚ) / (ds.length : ℚ) * 100

/-- The complementary percentage over the remaining (not fully played)
events, `not_fully_played / len(df) * 100`. -/
def rest_played_percentage (ds : List DerivedEvent) : ℚ :=
  (not_fully_played ds : ℚ) / (ds.length : ℚ) * 100

/-- `top_artist = df.groupby('artistName')[...].sum().idxmax()`. -/
def top_artist (ds : List DerivedEvent) : Option String :=
  (idxmaxPair (artist_groups ds)).map Prod.fst

/-- `top_song = df.groupby('trackName')[...].sum().idxmax()`. -/
def top_song (ds : List DerivedEvent) : Option String :=
  (idxmaxPair (track_groups ds)).map Prod.fst

/-- `monthly_top_artist = df.groupby(['month','artistName'])[...]
.sum().idxmax()[1]`: the artist component of the single two-level argmax. -/
def monthly_top_artist (ds : List DerivedEvent) : Option String :=
  (idxmaxPair (month_artist_groups ds)).map fun p => p.1.2

/-- `monthly_top_song = df.groupby(['month','trackName'])[...]
.sum().idxmax()[1]`: the track component of the single two-level argmax. -/
def monthly_top_song (ds : List DerivedEvent) : Option String :=
  (idxmaxPair (month_track_groups ds)).map fun p => p.1.2

/-- `top_5_artist_playtime = ...sum().nlargest(5).sum()`. -/
def top_5_artist_playtime (ds : List DerivedEvent) : ℚ :=
  (nlargestVals 5 (artist_groups ds)).sum

/-- Event timestamps in epoch seconds, in frame (upload) order. -/
def sessionTimes (ds : List DerivedEvent) : List Int :=
  ds.map fun d => d.endTime.epochSeconds

/-- The session ids the pipeline assigns (second block): the gap/cumsum
computation over the frame in its current, unsorted order. -/
def pipelineSessionIds (ds : List DerivedEvent) : List Nat :=
  session_ids (sessionTimes ds)

/-- First block: `df.groupby(df['session'].cumsum())['duration_minutes'].sum()`. -/
def session_lengths_first (ds : List DerivedEvent) : List (Nat × ℚ) :=
  groupSumSorted natLe
    ((session_ids_first (sessionTimes ds)).zip (ds.map fun d => d.duration_minutes))

/-- Second block: `df.groupby('session')['duration_minutes'].sum()`. -/
def session_lengths (ds : List DerivedEvent) : List (Nat × ℚ) :=
  groupSumSorted natLe
    ((session_ids (sessionTimes ds)).zip (ds.map fun d => d.duration_minutes))

/-- `longest_session = session_lengths.max()` (first block's lengths). -/
def longest_session (ds : List DerivedEvent) : Option ℚ :=
  maxVal (session_lengths_first ds)

/-- `shortest_session = session_lengths.min()` (first block's lengths). -/
def shortest_session (ds : List DerivedEvent) : Option ℚ :=
  minVal (session_lengths_first ds)

/-- `avg_session_duration = session_lengths.mean()` (second block's lengths). -/
def avg_session_duration (ds : List DerivedEvent) : ℚ :=
  qmean ((session_lengths ds).map Prod.snd)

/-- Occurrences already seen once: the running count behind `duplicated()`. -/
def dupCountFrom [DecidableEq α] (seen : List α) : List α → Nat
  | [] => 0
  | x :: xs => (if x ∈ seen then 1 else 0) + dupCountFrom (x :: seen) xs

/-- `song_repeatability_count = df['trackName'].duplicated().sum()`. -/
def song_repeatability_count (ds : List DerivedEvent) : Nat :=
  dupCountFrom [] (ds.map fun d => d.trackName)

/-- `Series.pct_change()` without its leading NaN: consecutive relative
changes `(cur - prev) / prev`. -/
def pctChange : List ℚ → List ℚ
  | [] => []
  | [_] => []
  | x :: y :: rest => (y - x) / x :: pctChange (y :: rest)

/-- `monthly_trend_variance = ...pct_change().mean() * 100` (the mean skips
the leading NaN). -/
def monthly_trend_variance (ds : List DerivedEvent) : ℚ :=
  qmean (pctChange ((month_groups ds).map Prod.snd)) * 100

/-- `consistency_rate = (len(df.groupby('day_of_week')) / 7) * 100`. -/
def consistency_rate (ds : List DerivedEvent) : ℚ :=
  ((day_groups ds).length : ℚ) / 7 * 100

/-- `most_active_month = monthly_activity.idxmax()`. -/
def most_active_month (ds : List DerivedEvent) : Option Nat :=
  (idxmaxPair (month_groups ds)).map Prod.fst

/-- `most_active_month_total = monthly_activity.max()`. -/
def most_active_month_total (ds : List DerivedEvent) : Option ℚ :=
  maxVal (month_groups ds)

/-- The KPISet: one read-only snapshot of every statistic the source
computes in its metric blocks (lines 182-238). -/
structure KPISet where
  date_range_start : String
  date_range_end : String
  total_hours : ℚ
  unique_artists : Nat
  unique_songs : Nat
  most_active_hour : Nat
  most_active_day : String
  avg_listens_per_day : ℚ
  avg_listens_per_month : ℚ
  avg_listens_per_hour : ℚ
  highest_month : Nat
  lowest_month : Nat
  weekday_playtime : ℚ
  weekend_playtime : ℚ
  fully_played_percentage : ℚ
  longest_session : ℚ
  shortest_session : ℚ
  top_artist : String
  top_song : String
  monthly_top_artist : String
  monthly_top_song : String
  top_5_artist_playtime : ℚ
  avg_session_duration : ℚ
  song_repeatability_count : Nat
  consistency_rate : ℚ
  monthly_trend_variance : ℚ
  most_active_month : Nat
  most_active_month_total : ℚ
deriving DecidableEq, Repr

/-- An empty aggregation (`idxmax`/`min`/`max` of an empty series) raises in
pandas; in the embedding it is the run-fatal `NoData` error. -/
def liftAgg : Option α → Except PipelineError α
  | none => .error .NoData
  | some a => .ok a

/-- The KPI computation over the derived frame: fails with `NoData` on an
empty frame (the source's first empty-series `idxmax` raises there),
otherwise the full snapshot. -/
def computeKpis (ds : List DerivedEvent) : Except PipelineError KPISet := do
  if ds.isEmpty then
    .error .NoData
  else
    let drs ← liftAgg (date_range_start ds)
    let dre ← liftAgg (date_range_end ds)
    let mah ← liftAgg (most_active_hour ds)
    let mad ← liftAgg (most_active_day ds)
    let hm ← liftAgg (highest_month ds)
    let lm ← liftAgg (lowest_month ds)
    let ls ← liftAgg (longest_session ds)
    let ss ← liftAgg (shortest_session ds)
    let ta ← liftAgg (top_artist ds)
    let tsg ← liftAgg (top_song ds)
    let mta ← liftAgg (monthly_top_artist ds)
    let mts ← liftAgg (monthly_top_song ds)
    let mam ← liftAgg (most_active_month ds)
    let mamt ← liftAgg (most_active_month_total ds)
    .ok
      { date_range_start := drs
        date_range_end := dre
        total_hours := total_hours ds
        unique_artists := unique_artists ds
        unique_songs := unique_songs ds
        most_active_hour := mah
        most_active_day := mad
        avg_listens_per_day := avg_listens_per_day ds
        avg_listens_per_month := avg_listens_per_month ds
        avg_listens_per_hour := avg_listens_per_hour ds
        highest_month := hm
        lowest_month := lm
        weekday_playtime := weekday_playtime ds
        weekend_playtime := weekend_playtime ds
        fully_played_percentage := fully_played_percentage ds
        longest_session := ls
        shortest_session := ss
        top_artist := ta
        top_song := tsg
        monthly_top_artist := mta
        monthly_top_song := mts
        top_5_artist_playtime := top_5_artist_playtime ds
        avg_session_duration := avg_session_duration ds
        song_repeatability_count := song_repeatability_count ds
        consistency_rate := consistency_rate ds
        monthly_trend_variance := monthly_trend_variance ds
        most_active_month := mam
        most_active_month_total := mamt }

/-- The named KPI quantities available to the context template. -/
inductive KPIName where
  | date_range_start
  | date_range_end
  | total_hours
  | unique_artists
  | unique_songs
  | most_active_hour
  | most_active_day
  | avg_listens_per_day
  | avg_listens_per_month
  | avg_listens_per_hour
  | highest_month
  | lowest_month
  | weekday_playtime
  | weekend_playtime
  | fully_played_percentage
  | longest_session
  | shortest_session
  | top_artist
  | top_song
  | monthly_top_artist
  | monthly_top_song
  | top_5_artist_playtime
  | avg_session_duration
  | song_repeatability_count
  | consistency_rate
  | monthly_trend_variance
  | most_active_month
  | most_active_month_total
deriving DecidableEq, Repr, Fintype

/-- An interpolation slot of the context f-string: a KPI quoted directly, or
the one inline complement `100 - fully_played_percentage`. -/
inductive SlotExpr where
  | kpi (k : KPIName)
  | oneHundredMinus (k : KPIName)
deriving DecidableEq, Repr

/-- One piece of the context f-string: literal text or a slot. -/
inductive TItem where
  | lit (s : String)
  | slot (e : SlotExpr)
deriving DecidableEq, Repr

/-- The context f-string of lines 249-270 as alternating literal text and
slots (the surrounding indentation whitespace is kept as single newlines). -/
def contextTemplate : List TItem :=
  [.lit "\nYour Spotify listening data (data range) spans from ",
   .slot (.kpi .date_range_start), .lit " to ", .slot (.kpi .date_range_end),
   .lit ".\nYou have listened for a total of ", .slot (.kpi .total_hours),
   .lit " hours.\nYou streamed ", .slot (.kpi .unique_songs),
   .lit " unique songs and ", .slot (.kpi .unique_artists),
   .lit " unique artists.\nYour most active hour of the day is ",
   .slot (.kpi .most_active_hour),
   .lit ":00.\nThe most active day of the week is ",
   .slot (.kpi .most_active_day),
   .lit ".\nOn average, you listen to ", .slot (.kpi .avg_listens_per_day),
   .lit " minutes per day and ", .slot (.kpi .avg_listens_per_month),
   .lit " minutes per month.\nThe month with the highest listening time is ",
   .slot (.kpi .highest_month), .lit ", and the lowest is ",
   .slot (.kpi .lowest_month), .lit ".\nFully played songs make up ",
   .slot (.kpi .fully_played_percentage),
   .lit "% of your total listening activity.\nYour longest listening session lasted ",
   .slot (.kpi .longest_session), .lit " minutes, and the shortest lasted ",
   .slot (.kpi .shortest_session),
   .lit " minutes.\nYour top artist overall is ", .slot (.kpi .top_artist),
   .lit ", and your most played song is ", .slot (.kpi .top_song),
   .lit ".\nYou have listened to ", .slot (.kpi .weekday_playtime),
   .lit " minutes on weekdays and ", .slot (.kpi .weekend_playtime),
   .lit " minutes on weekends.\nYour top artist by month is ",
   .slot (.kpi .monthly_top_artist), .lit ".\nYour top song by month is ",
   .slot (.kpi .monthly_top_song), .lit ".\nYou listen to ",
   .slot (.kpi .top_artist),
   .lit " the most during late-night hours.\nYour top 5 artists account for ",
   .slot (.kpi .top_5_artist_playtime),
   .lit " minutes of your listening time.\nYour playtime distribution is ",
   .slot (.kpi .fully_played_percentage), .lit "% fully played songs and ",
   .slot (.oneHundredMinus .fully_played_percentage),
   .lit "% partially played songs.\nYour average listening session duration is ",
   .slot (.kpi .avg_session_duration),
   .lit " minutes.\nYou have repeated songs ",
   .slot (.kpi .song_repeatability_count),
   .lit " times in your dataset.\nYour listening activity has been consistent at ",
   .slot (.kpi .consistency_rate),
   .lit "% across the week.\nYour listening trends have changed month-to-month with ",
   .slot (.kpi .monthly_trend_variance), .lit "% variance in playtime.\n"]

/-- How many slots of a template quote the given KPI's value directly. -/
def slotCount (t : List TItem) (k : KPIName) : Nat :=
  (t.filter fun it => it = .slot (.kpi k)).length

/-- How many slots quote `100 -` the given KPI. -/
def complementSlotCount (t : List TItem) (k : KPIName) : Nat :=
  (t.filter fun it => it = .slot (.oneHundredMinus k)).length

/-- Python `f"{x:.2f}"` on an exact rational (rounding half away from zero;
binary-float rounding of halves differs only in the last digit of artifacts
no claim evaluates). -/
def fmtQ2 (q : ℚ) : String :=
  let n : Int := ⌊q * 100 + 1 / 2⌋
  let sign := if n < 0 then "-" else ""
  let m := n.natAbs
  sign ++ toString (m / 100) ++ "." ++ pad2 (m % 100)

/-- The numeric (float-formatted) KPIs of the snapshot. -/
def kpiNum (k : KPISet) : KPIName → ℚ
  | .total_hours => k.total_hours
  | .avg_listens_per_day => k.avg_listens_per_day
  | .avg_listens_per_month => k.avg_listens_per_month
  | .avg_listens_per_hour => k.avg_listens_per_hour
  | .weekday_playtime => k.weekday_playtime
  | .weekend_playtime => k.weekend_playtime
  | .fully_played_percentage => k.fully_played_percentage
  | .longest_session => k.longest_session
  | .shortest_session => k.shortest_session
  | .top_5_artist_playtime => k.top_5_artist_playtime
  | .avg_session_duration => k.avg_session_duration
  | .consistency_rate => k.consistency_rate
  | .monthly_trend_variance => k.monthly_trend_variance
  | .most_active_month_total => k.most_active_month_total
  | _ => 0

/-- The text each KPI interpolates into its slot, with the formatting the
f-string applies (`:.2f` on the float quantities, plain rendering on the
integers and strings). -/
def kpiText (k : KPISet) : KPIName → String
  | .date_range_start => k.date_range_start
  | .date_range_end => k.date_range_end
  | .unique_artists => toString k.unique_artists
  | .unique_songs => toString k.unique_songs
  | .most_active_hour => toString k.most_active_hour
  | .most_active_day => k.most_active_day
  | .highest_month => toString k.highest_month
  | .lowest_month => toString k.lowest_month
  | .top_artist => k.top_artist
  | .top_song => k.top_song
  | .monthly_top_artist => k.monthly_top_artist
  | .monthly_top_song => k.monthly_top_song
  | .song_repeatability_count => toString k.song_repeatability_count
  | .most_active_month => toString k.most_active_month
  | n => fmtQ2 (kpiNum k n)

/-- Render one template piece against a snapshot. -/
def renderItem (k : KPISet) : TItem → String
  | .lit s => s
  | .slot (.kpi n) => kpiText k n
  | .slot (.oneHundredMinus n) => fmtQ2 (100 - kpiNum k n)

/-- The Context Document Builder: the f-string rendered against one
snapshot. -/
def buildContext (k : KPISet) : String :=
  String.join (contextTemplate.map (renderItem k))

/-- The core pipeline from canonical events: clean and derive, compute the
KPI snapshot, render the context document. -/
def runPipeline (evs : List CanonicalEvent) :
    Except PipelineError (KPISet × String) :=
  match deriveEvents evs with
  | .error e => .error e
  | .ok ds =>
    match computeKpis ds with
    | .error e => .error e
    | .ok k => .ok (k, buildContext k)

/-- Per-month top artist as the spec's words describe the KPI: the argmax,
within the single month `m`, of summed duration per artist. -/
def topArtistWithinMonth_spec (ds : List DerivedEvent) (m : Nat) :
    Option String :=
  (idxmaxPair (groupSumSorted (fun a b => strLe a b)
    (artistPairs (ds.filter fun d => d.month = m)))).map Prod.fst

/-- Per-month top track as the spec's words describe the KPI: the argmax,
within the single month `m`, of summed duration per track. -/
def topTrackWithinMonth_spec (ds : List DerivedEvent) (m : Nat) :
    Option String :=
  (idxmaxPair (groupSumSorted (fun a b => strLe a b)
    (trackPairs (ds.filter fun d => d.month = m)))).map Prod.fst

/-- The derived frame sorted ascending by `endTime` (stable), the order the
spec says segmentation must run on. -/
def sortedByTime (ds : List DerivedEvent) : List DerivedEvent :=
  sortByLe (fun a b => a.endTime.epochMinutes ≤ b.endTime.epochMinutes) ds

/-- The spec's normalization example record in the extended format. -/
def extRecordEx : RawRecord :=
  { ts := some "2023-05-01T10:15:00Z"
    master_metadata_album_artist_name := some "A"
    master_metadata_track_name := some "T"
    ms_played := some 120000 }

/-- An extended record with `ms_played` and the artist field absent. -/
def extRecordNoMs : RawRecord :=
  { ts := some "2023-05-01T10:15:00Z"
    master_metadata_track_name := some "T" }

/-- The legacy record carrying the same canonical fields directly. -/
def legacyRecordEx : RawRecord :=
  { endTime := some "2023-05-01 10:15"
    artistName := some "A"
    trackName := some "T"
    msPlayed := some 120000 }

/-- The canonical event both example records normalize to. -/
def canonEx : CanonicalEvent :=
  ⟨"2023-05-01 10:15", some "A", some "T", 120000⟩

/-- A batch whose every event has `msPlayed = 0`. -/
def zeroBatchEx : List CanonicalEvent :=
  [⟨"2023-05-01 10:15", some "A", some "T", 0⟩,
   ⟨"2023-05-01 10:20", some "B", some "U", 0⟩]

/-- A small canonical batch with one zero-duration event. -/
def mixedBatchEx : List CanonicalEvent :=
  [⟨"2023-05-01 10:15", some "A", some "T", 120000⟩,
   ⟨"2023-05-01 10:20", some "A", some "T", 0⟩,
   ⟨"2023-05-01 10:40", some "B", some "U", 150000⟩]

/-- Derived events spanning two months whose per-month top artists differ:
in month 1 artist A has 100 minutes and B has 10, in month 2 only B plays. -/
def twoMonthEx : List DerivedEvent :=
  [{ endTime := ⟨2023, 1, 1, 10, 0, 0⟩, artistName := some "A",
     trackName := some "X", msPlayed := 6000000, hour := 10,
     day_of_week := "Sunday", duration_minutes := 100, month := 1 },
   { endTime := ⟨2023, 1, 2, 10, 0, 0⟩, artistName := some "B",
     trackName := some "Y", msPlayed := 600000, hour := 10,
     day_of_week := "Monday", duration_minutes := 10, month := 1 },
   { endTime := ⟨2023, 2, 1, 10, 0, 0⟩, artistName := some "B",
     trackName := some "Y", msPlayed := 3000000, hour := 10,
     day_of_week := "Wednesday", duration_minutes := 50, month := 2 }]

/-- Derived events uploaded out of chronological order: timestamps at
minutes 0, 100 and 10 of 1970-01-01. -/
def unsortedSessionEx : List DerivedEvent :=
  [{ endTime := ⟨1970, 1, 1, 0, 0, 0⟩, artistName := some "A",
     trackName := some "X", msPlayed := 60000, hour := 0,
     day_of_week := "Thursday", duration_minutes := 1, month := 1 },
   { endTime := ⟨1970, 1, 1, 1, 40, 0⟩, artistName := some "A",
     trackName := some "X", msPlayed := 60000, hour := 1,
     day_of_week := "Thursday", duration_minutes := 1, month := 1 },
   { endTime := ⟨1970, 1, 1, 0, 10, 0⟩, artistName := some "A",
     trackName := some "X", msPlayed := 60000, hour := 0,
     day_of_week := "Thursday", duration_minutes := 1, month := 1 }]

/-- The derived events `mixedBatchEx` cleans to: the zero-duration event is
gone and the two positive events carry their derived columns. -/
def mixedDerivedEx : List DerivedEvent :=
  [{ endTime := ⟨2023, 5, 1, 10, 15, 0⟩, artistName := some "A",
     trackName := some "T", msPlayed := 120000, hour := 10,
     day_of_week := "Monday", duration_minutes := ((120000 : Int) : ℚ) / 60000,
     month := 5 },
   { endTime := ⟨2023, 5, 1, 10, 40, 0⟩, artistName := some "B",
     trackName := some "U", msPlayed := 150000, hour := 10,
     day_of_week := "Monday", duration_minutes := ((150000 : Int) : ℚ) / 60000,
     month := 5 }]

/-- How often each KPI's value is actually quoted by the context f-string:
`top_artist` and `fully_played_percentage` twice, the three computed-but-
never-quoted statistics zero times, every other KPI exactly once. -/
def expectedSlotCount : KPIName → Nat
  | .top_artist => 2
  | .fully_played_percentage => 2
  | .avg_listens_per_hour => 0
  | .most_active_month => 0
  | .most_active_month_total => 0
  | _ => 1

/-- C6: format detection over a record is exhaustive and exclusive: the
extended probe (`ts` with `master_metadata_track_name`) is tried first, the
legacy probe (`endTime` with `trackName`) second, `unknown` otherwise, and
exactly one of the three outcomes is returned; over a batch, the first
record alone decides. -/
theorem detect_format_trichotomy :
    ∀ r : RawRecord,
      (detectRecordFormat r = .new ↔
        r.ts.isSome ∧ r.master_metadata_track_name.isSome)
      ∧ (detectRecordFormat r = .old ↔
          ¬(r.ts.isSome ∧ r.master_metadata_track_name.isSome)
            ∧ r.endTime.isSome ∧ r.trackName.isSome)
      ∧ (detectRecordFormat r = .unknown ↔
          ¬(r.ts.isSome ∧ r.master_metadata_track_name.isSome)
            ∧ ¬(r.endTime.isSome ∧ r.trackName.isSome))
      ∧ (∀ rest : List RawRecord,
          detect_file_format (r :: rest) = some (detectRecordFormat r)) := by
  intro r
  refine ⟨?_, ?_, ?_, fun rest => rfl⟩ <;>
    · unfold detectRecordFormat
      split_ifs with h1 h2 <;> simp_all

/-- C7: normalization of the extended format maps `ts` to a minute-precision
`endTime`, the artist and track metadata fields through unchanged (absent
fields become null), and `ms_played` to `msPlayed` with default 0; on the
spec's example record it yields exactly the canonical event the legacy
record with those fields yields. -/
theorem normalize_extended_mapping :
    (∀ (r : RawRecord) (s : String) (t : DateTime),
        r.ts = some s → parseISO8601 s = some t →
        convertRecord r = some
          { endTime := formatMinute t
            artistName := r.master_metadata_album_artist_name
            trackName := r.master_metadata_track_name
            msPlayed := r.ms_played.getD 0 })
    ∧ convertRecord extRecordEx = some canonEx
    ∧ legacyToCanonical legacyRecordEx = some canonEx
    ∧ convertRecord extRecordNoMs = some ⟨"2023-05-01 10:15", none, some "T", 0⟩ := by
  refine ⟨?_, by decide, by decide, by decide⟩
  intro r s t hs ht
  simp [convertRecord, hs, ht]

/-- C5 counterexample: the context template quotes `top_artist` in two
distinct slots (lines 259 and 263 of the source), so not every KPI appears
in exactly one slot. -/
theorem context_slots_counterexample :
    slotCount contextTemplate .top_artist = 2
    ∧ ¬(∀ k : KPIName, slotCount contextTemplate k = 1) := by
  constructor
  · decide
  · intro h
    have := h .top_artist
    revert this
    decide

/-- C5 amended: the template is a fixed, unconditional slot list, but the
per-KPI multiplicities are: `top_artist` and `fully_played_percentage`
twice, `avg_listens_per_hour`, `most_active_month` and
`most_active_month_total` (computed but never quoted) zero times, every
other KPI exactly once; the lone complement slot quotes
`100 - fully_played_percentage`. -/
theorem context_slot_counts :
    (∀ k : KPIName, slotCount contextTemplate k = expectedSlotCount k)
    ∧ complementSlotCount contextTemplate .fully_played_percentage = 1
    ∧ (∀ k : KPIName, k ≠ .fully_played_percentage →
        complementSlotCount contextTemplate k = 0) := by
  refine ⟨?_, by decide, ?_⟩ <;> decide

/-- C2 counterexample: on an upload order with timestamps at minutes 0, 100,
10, the pipeline's segmentation (which runs on upload order) assigns
ids [0, 1, 1], while segmentation of the chronologically sorted sequence
assigns [0, 0, 1]; the pipeline does not sort before segmenting. -/
theorem sort_before_segment_counterexample :
    pipelineSessionIds unsortedSessionEx = [0, 1, 1]
    ∧ pipelineSessionIds (sortedByTime unsortedSessionEx) = [0, 0, 1]
    ∧ pipelineSessionIds unsortedSessionEx ≠
        pipelineSessionIds (sortedByTime unsortedSessionEx) := by
  refine ⟨by decide, by decide, by decide⟩

/-- Helper: the running-id form of segmentation coincides with the
cumulative-sum-of-flags form, from any accumulator. -/
theorem runIdsFrom_eq_cumsumFrom (rest : List Int) :
    ∀ (t : Int) (acc : Nat),
      runIdsFrom acc t rest =
        cumsumFrom acc ((deltasFromPrev t rest).map
          fun g => if g > 1800 then 1 else 0) := by
  induction rest with
  | nil => intro t acc; rfl
  | cons x xs ih =>
    intro t acc
    simp only [runIdsFrom, deltasFromPrev, List.map_cons, cumsumFrom]
    by_cases h : x - t > 1800
    · simp [h, ih]
    · simp [h, ih]

/-- C2 amended: session ids are assigned over the event sequence in upload
order, by the §4.3 running-gap algorithm applied to that order (no sort is
performed before segmentation). -/
theorem segmentation_upload_order :
    ∀ ds : List DerivedEvent,
      pipelineSessionIds ds = sessionIdsRun (sessionTimes ds) := by
  intro ds
  unfold pipelineSessionIds session_ids sessionIdsRun
  cases h : sessionTimes ds with
  | nil => rfl
  | cons t rest =>
    simp only [session_deltas, cumsum, List.map_cons, cumsumFrom]
    rw [runIdsFrom_eq_cumsumFrom]
    norm_num

/-- C4 counterexample: with artist A (track X) dominating month 1 and
artist B (track Y) the only play of month 2, the source's single
`monthly_top_artist` KPI is `"A"` and `monthly_top_song` is `"X"` (the name
slot of the global two-level argmax), while the argmaxes within month 2's
own group are `"B"` and `"Y"`: neither KPI is a per-month argmax. -/
theorem monthly_top_artist_counterexample :
    (monthly_top_artist twoMonthEx = some "A"
      ∧ topArtistWithinMonth_spec twoMonthEx 2 = some "B"
      ∧ monthly_top_artist twoMonthEx ≠ topArtistWithinMonth_spec twoMonthEx 2)
    ∧ (monthly_top_song twoMonthEx = some "X"
      ∧ topTrackWithinMonth_spec twoMonthEx 2 = some "Y"
      ∧ monthly_top_song twoMonthEx ≠ topTrackWithinMonth_spec twoMonthEx 2) := by
  have h1 : monthly_top_artist twoMonthEx = some "A" := by
    simp [monthly_top_artist, month_artist_groups, monthArtistPairs, twoMonthEx,
      groupSumSorted, sumForKey, sortByLe, insertByLe, monthNameLe, strLe, charsLe,
      idxmaxPair, List.dedup, List.filterMap_cons, List.filter_cons, List.sum_cons,
      List.pwFilter]
    norm_num
  have h2 : topArtistWithinMonth_spec twoMonthEx 2 = some "B" := by
    simp [topArtistWithinMonth_spec, artistPairs, twoMonthEx,
      groupSumSorted, sumForKey, sortByLe, insertByLe, strLe, charsLe,
      idxmaxPair, List.dedup, List.filterMap_cons, List.filter_cons, List.sum_cons,
      List.pwFilter]
  have h3 : monthly_top_song twoMonthEx = some "X" := by
    simp [monthly_top_song, month_track_groups, monthTrackPairs, twoMonthEx,
      groupSumSorted, sumForKey, sortByLe, insertByLe, monthNameLe, strLe, charsLe,
      idxmaxPair, List.dedup, List.filterMap_cons, List.filter_cons, List.sum_cons,
      List.pwFilter]
    norm_num
  have h4 : topTrackWithinMonth_spec twoMonthEx 2 = some "Y" := by
    simp [topTrackWithinMonth_spec, trackPairs, twoMonthEx,
      groupSumSorted, sumForKey, sortByLe, insertByLe, strLe, charsLe,
      idxmaxPair, List.dedup, List.filterMap_cons, List.filter_cons, List.sum_cons,
      List.pwFilter]
  refine ⟨⟨h1, h2, ?_⟩, h3, h4, ?_⟩
  · rw [h1, h2]
    simp
  · rw [h3, h4]
    simp

/-- Helper: `idxmaxPair` only returns `none` on the empty series. -/
theorem idxmaxPair_mem {κ : Type} (l : List (κ × ℚ)) (p : κ × ℚ)
    (h : idxmaxPair l = some p) : p ∈ l := by
  induction l with
  | nil => simp [idxmaxPair] at h
  | cons x xs ih =>
    unfold idxmaxPair at h
    cases hx : idxmaxPair xs with
    | none => rw [hx] at h; simp at h; simp [h]
    | some q =>
      rw [hx] at h
      by_cases hq : q.2 > x.2
      · simp [hq] at h
        exact List.mem_cons_of_mem x (ih (h ▸ hx))
      · simp [hq] at h
        simp [h]

/-- Helper: `idxmaxPair` is `none` exactly on the empty series. -/
theorem idxmaxPair_eq_none {κ : Type} (l : List (κ × ℚ)) :
    idxmaxPair l = none ↔ l = [] := by
  cases l with
  | nil => simp [idxmaxPair]
  | cons x xs =>
    simp only [idxmaxPair]
    cases idxmaxPair xs with
    | none => simp
    | some q => by_cases h : q.2 > x.2 <;> simp [h]

/-- Helper: the pair `idxmaxPair` returns carries the maximal value. -/
theorem idxmaxPair_max {κ : Type} (l : List (κ × ℚ)) (p : κ × ℚ)
    (h : idxmaxPair l = some p) : ∀ q ∈ l, q.2 ≤ p.2 := by
  induction l generalizing p with
  | nil => simp [idxmaxPair] at h
  | cons x xs ih =>
    unfold idxmaxPair at h
    cases hx : idxmaxPair xs with
    | none =>
      rw [hx] at h
      simp only [Option.some.injEq] at h
      have hxs : xs = [] := (idxmaxPair_eq_none xs).mp hx
      subst hxs
      intro q hq
      simp only [List.mem_singleton] at hq
      subst hq
      simp [← h]
    | some q0 =>
      rw [hx] at h
      dsimp only at h
      intro q hq
      by_cases hc : q0.2 > x.2
      · rw [if_pos hc] at h
        injection h with h
        subst h
        rcases List.mem_cons.mp hq with h1 | h1
        · exact h1 ▸ le_of_lt hc
        · exact ih q0 hx q h1
      · rw [if_neg hc] at h
        injection h with h
        subst h
        rcases List.mem_cons.mp hq with h1 | h1
        · exact le_of_eq (congrArg Prod.snd h1)
        · exact le_trans (ih q0 hx q h1) (not_lt.mp hc)

/-- C4 amended: `monthly_top_artist` and `monthly_top_song` are single
values, the artist (track) component of the one `(month, name)` pair whose
summed duration is globally maximal over the respective two-level grouping
(pandas `idxmax` of the MultiIndex series), not per-month mappings. -/
theorem monthly_top_artist_global_argmax :
    ∀ (ds : List DerivedEvent) (pa pt : (Nat × String) × ℚ),
      idxmaxPair (month_artist_groups ds) = some pa →
      idxmaxPair (month_track_groups ds) = some pt →
      (monthly_top_artist ds = some pa.1.2
        ∧ pa ∈ month_artist_groups ds
        ∧ ∀ q ∈ month_artist_groups ds, q.2 ≤ pa.2)
      ∧ (monthly_top_song ds = some pt.1.2
        ∧ pt ∈ month_track_groups ds
        ∧ ∀ q ∈ month_track_groups ds, q.2 ≤ pt.2) := by
  intro ds pa pt ha ht
  exact ⟨⟨by simp [monthly_top_artist, ha], idxmaxPair_mem _ _ ha,
      idxmaxPair_max _ _ ha⟩,
    ⟨by simp [monthly_top_song, ht], idxmaxPair_mem _ _ ht,
      idxmaxPair_max _ _ ht⟩⟩

/-- C4 amended, witnessed at the two-month example: the globally maximal
pairs are ((1, A), 100) and ((1, X), 100), so the KPIs are A and X, the
tops of every artist-pair and track-pair sum. -/
theorem monthly_top_artist_global_argmax_witness :
    (monthly_top_artist twoMonthEx = some "A"
      ∧ ((1, "A"), (100 : ℚ)) ∈ month_artist_groups twoMonthEx
      ∧ ∀ q ∈ month_artist_groups twoMonthEx, q.2 ≤ (100 : ℚ))
    ∧ (monthly_top_song twoMonthEx = some "X"
      ∧ ((1, "X"), (100 : ℚ)) ∈ month_track_groups twoMonthEx
      ∧ ∀ q ∈ month_track_groups twoMonthEx, q.2 ≤ (100 : ℚ)) :=
  monthly_top_artist_global_argmax twoMonthEx ((1, "A"), 100) ((1, "X"), 100)
    (by
      simp [month_artist_groups, monthArtistPairs, twoMonthEx,
        groupSumSorted, sumForKey, sortByLe, insertByLe, monthNameLe, strLe,
        charsLe, idxmaxPair, List.dedup, List.filterMap_cons, List.filter_cons,
        List.sum_cons, List.pwFilter]
      norm_num)
    (by
      simp [month_track_groups, monthTrackPairs, twoMonthEx,
        groupSumSorted, sumForKey, sortByLe, insertByLe, monthNameLe, strLe,
        charsLe, idxmaxPair, List.dedup, List.filterMap_cons, List.filter_cons,
        List.sum_cons, List.pwFilter]
      norm_num)

/-- C1: whenever cleaning leaves zero events (every event was dropped for
`msPlayed <= 0`), the pipeline run fails with `NoData` before any KPI is
produced: no KPISet and no context document exist. -/
theorem pipeline_nodata_on_empty :
    ∀ evs : List CanonicalEvent,
      deriveEvents evs = .ok [] → runPipeline evs = .error .NoData := by
  intro evs h
  unfold runPipeline
  rw [h]
  rfl

/-- C1 witnessed at a batch whose every event has `msPlayed = 0`. -/
theorem pipeline_nodata_on_empty_witness :
    runPipeline zeroBatchEx = .error .NoData :=
  pipeline_nodata_on_empty zeroBatchEx (by rfl)

/-- C8: every event surviving cleaning has `msPlayed > 0`, and the rest of
the run (every KPI and the context document) is computed from exactly that
cleaned event set. -/
theorem derive_excludes_nonpositive :
    ∀ (evs : List CanonicalEvent) (ds : List DerivedEvent),
      deriveEvents evs = .ok ds →
      (∀ d ∈ ds, d.msPlayed > 0)
      ∧ runPipeline evs = (computeKpis ds).map fun k => (k, buildContext k) := by
  intro evs ds h
  constructor
  · unfold deriveEvents at h
    cases hp : parseAllTimes evs with
    | error e => rw [hp] at h; exact absurd h (by simp)
    | ok parsed =>
      rw [hp] at h
      simp only [Except.ok.injEq] at h
      subst h
      intro d hd
      simp only [List.mem_map, List.mem_filter] at hd
      obtain ⟨p, ⟨_, hpos⟩, rfl⟩ := hd
      simpa [mkDerived] using hpos
  · unfold runPipeline
    rw [h]
    cases hk : computeKpis ds <;> simp [Except.map, hk]

/-- C8 witnessed at a batch with one zero-duration event: the cleaned frame
keeps only the two positive events. -/
theorem derive_excludes_nonpositive_witness :
    (∀ d ∈ mixedDerivedEx, d.msPlayed > 0)
    ∧ runPipeline mixedBatchEx =
        (computeKpis mixedDerivedEx).map fun k => (k, buildContext k) :=
  derive_excludes_nonpositive mixedBatchEx mixedDerivedEx (by rfl)

/-- Helper: the fully-played and not-fully-played counts partition the
cleaned frame. -/
theorem fully_played_add_rest (ds : List DerivedEvent) :
    fully_played ds + not_fully_played ds = ds.length := by
  unfold fully_played not_fully_played
  induction ds with
  | nil => rfl
  | cons d rest ih =>
    simp only [List.filter_cons, List.length_cons]
    by_cases hd : (d.msPlayed : ℚ) ≥ fullyPlayedThreshold
    · simp only [ge_iff_le] at ih
      simp [hd, not_lt.mpr hd]
      omega
    · have hlt : (d.msPlayed : ℚ) < fullyPlayedThreshold := not_le.mp hd
      simp only [ge_iff_le] at ih
      simp [hd, hlt]
      omega

/-- C9: on any non-empty cleaned frame the fully-played percentage
(`msPlayed >= 0.8 * 180000`) and the percentage of the remaining events sum
to exactly 100, and the latter equals the `100 - fully_played_percentage`
the context document quotes. -/
theorem play_percentages_sum (ds : List DerivedEvent) (h : ds ≠ []) :
    fully_played_percentage ds + rest_played_percentage ds = 100
    ∧ rest_played_percentage ds = 100 - fully_played_percentage ds := by
  have hn : (ds.length : ℚ) ≠ 0 := by
    have := List.length_pos.mpr h
    exact_mod_cast Nat.pos_iff_ne_zero.mp this
  have key : (fully_played ds : ℚ) + (not_fully_played ds : ℚ) = (ds.length : ℚ) := by
    exact_mod_cast congrArg (fun n : Nat => (n : ℚ)) (fully_played_add_rest ds)
  have hsum : fully_played_percentage ds + rest_played_percentage ds = 100 := by
    unfold fully_played_percentage rest_played_percentage
    field_simp
    linarith [key]
  exact ⟨hsum, by linarith [hsum]⟩

/-- C9 witnessed at the three-event two-month example. -/
theorem play_percentages_sum_witness :
    fully_played_percentage twoMonthEx + rest_played_percentage twoMonthEx = 100
    ∧ rest_played_percentage twoMonthEx =
        100 - fully_played_percentage twoMonthEx :=
  play_percentages_sum twoMonthEx (by decide)

/-- Helper: the first block's boolean gap column (NaN comparing false) and
the second block's zero-filled gap column induce the same 0/1 increments. -/
theorem sessionFlags_eq (ts : List Int) :
    (sessionFlagsNaN ts).map (fun b => if b then (1 : Nat) else 0)
      = (session_deltas ts).map (fun g => if g > 1800 then (1 : Nat) else 0) := by
  cases ts with
  | nil => rfl
  | cons t rest =>
    simp only [sessionFlagsNaN, session_deltas, List.map_cons, List.map_map]
    have hfun : ((fun b => if b then (1 : Nat) else 0) ∘
        fun g : Int => (decide (g > 1800))) =
          fun g : Int => if g > 1800 then (1 : Nat) else 0 := by
      funext g
      by_cases hg : g > 1800 <;> simp [hg]
    rw [hfun]
    norm_num

/-- C10: the two session-id computations of the source (boolean column then
`cumsum`, and zero-filled deltas then `cumsum`) assign identical ids to
every event, so the longest/shortest session figures and the mean session
duration describe the same session partition. -/
theorem session_computations_agree :
    ∀ ds : List DerivedEvent,
      session_ids_first (sessionTimes ds) = pipelineSessionIds ds
      ∧ session_lengths_first ds = session_lengths ds := by
  intro ds
  have hids : session_ids_first (sessionTimes ds)
      = session_ids (sessionTimes ds) := by
    unfold session_ids_first session_ids
    rw [sessionFlags_eq]
  refine ⟨hids, ?_⟩
  unfold session_lengths_first session_lengths
  rw [hids]

/-- Helper: the shifted-difference column, entrywise. -/
theorem deltasFromPrev_get? (l : List Int) :
    ∀ (prev : Int) (i : Nat),
      (deltasFromPrev prev l)[i]? =
        Option.map₂ (fun a b => a - b) l[i]? (prev :: l)[i]? := by
  induction l with
  | nil =>
    intro prev i
    cases i <;> simp [deltasFromPrev, Option.map₂]
  | cons x xs ih =>
    intro prev i
    cases i with
    | zero => simp [deltasFromPrev, Option.map₂]
    | succ j => simpa [deltasFromPrev] using ih x j

/-- Helper: past the first row, the delta column holds the difference to
the previous timestamp. -/
theorem session_deltas_get?_succ (ts : List Int) (i : Nat) :
    (session_deltas ts)[i+1]? =
      Option.map₂ (fun a b => a - b) ts[i+1]? ts[i]? := by
  cases ts with
  | nil => simp [session_deltas, Option.map₂]
  | cons t rest => simpa [session_deltas] using deltasFromPrev_get? rest t i

/-- Helper: the difference column has one entry per remaining row. -/
theorem deltasFromPrev_length (l : List Int) :
    ∀ prev : Int, (deltasFromPrev prev l).length = l.length := by
  induction l with
  | nil => intro prev; rfl
  | cons x xs ih => intro prev; simp [deltasFromPrev, ih]

/-- Helper: the zero-filled delta column has one entry per row. -/
theorem session_deltas_length (ts : List Int) :
    (session_deltas ts).length = ts.length := by
  cases ts with
  | nil => rfl
  | cons t rest => simp [session_deltas, deltasFromPrev_length]

/-- Helper: a cumulative sum preserves length. -/
theorem cumsumFrom_length (l : List Nat) :
    ∀ acc : Nat, (cumsumFrom acc l).length = l.length := by
  induction l with
  | nil => intro acc; rfl
  | cons x xs ih => intro acc; simp [cumsumFrom, ih]

/-- Helper: entry `i` of a cumulative sum is the accumulator plus the sum
of the first `i + 1` entries. -/
theorem cumsumFrom_get? (l : List Nat) :
    ∀ (acc i : Nat),
      (cumsumFrom acc l)[i]? = l[i]?.map (fun _ => acc + (l.take (i+1)).sum) := by
  induction l with
  | nil => intro acc i; simp [cumsumFrom]
  | cons x xs ih =>
    intro acc i
    cases i with
    | zero => simp [cumsumFrom]
    | succ j =>
      simp only [cumsumFrom, List.getElem?_cons_succ, List.take_succ_cons,
        List.sum_cons]
      rw [ih]
      cases xs[j]? <;> simp [add_assoc]

/-- Helper: prefix sums of naturals grow with the prefix. -/
theorem sum_take_mono (l : List Nat) {i j : Nat} (h : i ≤ j) :
    (l.take i).sum ≤ (l.take j).sum := by
  have h1 : l.take i = (l.take j).take i := by
    rw [List.take_take, Nat.min_eq_left h]
  calc (l.take i).sum = ((l.take j).take i).sum := by rw [← h1]
    _ ≤ ((l.take j).take i).sum + ((l.take j).drop i).sum := Nat.le_add_right _ _
    _ = (l.take j).sum := by rw [← List.sum_append, List.take_append_drop]

/-- Helper: a sum of 0/1 entries is at most the number of entries. -/
theorem sum_le_length_of_le_one (l : List Nat) (hb : ∀ x ∈ l, x ≤ 1) :
    l.sum ≤ l.length := by
  induction l with
  | nil => simp
  | cons x xs ih =>
    simp only [List.sum_cons, List.length_cons]
    have hx := hb x (List.mem_cons_self x xs)
    have := ih fun y hy => hb y (List.mem_cons_of_mem x hy)
    omega

/-- C3: session segmentation assigns one id per event, id 0 to the first
event, steps by exactly the gap indicator (a new session iff the gap to the
previous event strictly exceeds 1800 seconds, so a gap of exactly 1800
keeps the session), is non-decreasing along the sequence, and every id is
at most its position (ids are the running count of gap crossings, hence
contiguous from 0). -/
theorem session_ids_spec (ts : List Int) (h : ts ≠ []) :
    (session_ids ts).length = ts.length
    ∧ (session_ids ts).head? = some 0
    ∧ (∀ (i a b : Nat) (c d : Int), (session_ids ts)[i]? = some a →
        (session_ids ts)[i+1]? = some b →
        ts[i]? = some c → ts[i+1]? = some d →
        b = a + (if d - c > 1800 then 1 else 0))
    ∧ (∀ (i j a b : Nat), i ≤ j → (session_ids ts)[i]? = some a →
        (session_ids ts)[j]? = some b → a ≤ b)
    ∧ (∀ (i a : Nat), (session_ids ts)[i]? = some a → a ≤ i) := by
  have hids : session_ids ts =
      cumsumFrom 0 ((session_deltas ts).map fun g => if g > 1800 then 1 else 0) := rfl
  set flags := (session_deltas ts).map (fun g : Int => if g > 1800 then (1 : Nat) else 0) with hflags
  have hget : ∀ i : Nat, (session_ids ts)[i]? =
      flags[i]?.map (fun _ => 0 + (flags.take (i+1)).sum) := by
    intro i
    rw [hids]
    exact cumsumFrom_get? flags 0 i
  refine ⟨?_, ?_, ?_, ?_, ?_⟩
  · rw [hids, cumsumFrom_length, hflags, List.length_map, session_deltas_length]
  · cases ts with
    | nil => exact absurd rfl h
    | cons t rest =>
      rw [hids]
      simp [session_deltas, cumsumFrom]
  · intro i a b c d ha hb2 hc hd
    rw [hget i] at ha
    rw [hget (i+1)] at hb2
    cases hfi : flags[i]? with
    | none => rw [hfi] at ha; exact absurd ha (by simp)
    | some fi =>
      rw [hfi] at ha
      simp only [Option.map_some', Option.some.injEq] at ha
      cases hfi1 : flags[(i+1)]? with
      | none => rw [hfi1] at hb2; exact absurd hb2 (by simp)
      | some fi1 =>
        rw [hfi1] at hb2
        simp only [Option.map_some', Option.some.injEq] at hb2
        have hlen : i + 1 < flags.length := (List.getElem?_eq_some.mp hfi1).1
        have hval : flags[i+1] = fi1 := (List.getElem?_eq_some.mp hfi1).2
        have hfi1eq : fi1 = if d - c > 1800 then 1 else 0 := by
          have : flags[(i+1)]? = some (if d - c > 1800 then 1 else 0) := by
            rw [hflags, List.getElem?_map, session_deltas_get?_succ, hc, hd]
            simp [Option.map₂]
          rw [hfi1] at this
          exact (Option.some.injEq _ _).mp this
        have hsum : (flags.take (i+2)).sum =
            (flags.take (i+1)).sum + flags.get ⟨i+1, hlen⟩ :=
          List.sum_take_succ flags (i+1) hlen
        have hgetv : flags.get ⟨i+1, hlen⟩ = fi1 := by
          simpa using hval
        rw [← ha, ← hb2]
        rw [show i + 1 + 1 = i + 2 from rfl] at hsum ⊢
        rw [hsum, hgetv, hfi1eq]
        omega
  · intro i j a b hij ha hb2
    rw [hget i] at ha
    rw [hget j] at hb2
    cases hfi : flags[i]? with
    | none => rw [hfi] at ha; exact absurd ha (by simp)
    | some fi =>
      cases hfj : flags[j]? with
      | none => rw [hfj] at hb2; exact absurd hb2 (by simp)
      | some fj =>
        rw [hfi] at ha; rw [hfj] at hb2
        simp only [Option.map_some', Option.some.injEq] at ha hb2
        rw [← ha, ← hb2]
        simpa using sum_take_mono flags (Nat.add_le_add_right hij 1)
  · intro i a ha
    rw [hget i] at ha
    cases hfi : flags[i]? with
    | none => rw [hfi] at ha; exact absurd ha (by simp)
    | some fi =>
      rw [hfi] at ha
      simp only [Option.map_some', Option.some.injEq] at ha
      cases ts with
      | nil => exact absurd rfl h
      | cons t rest =>
        have hflags2 : flags = (if (0 : Int) > 1800 then 1 else 0) ::
            ((deltasFromPrev t rest).map fun g : Int => if g > 1800 then (1 : Nat) else 0) := by
          rw [hflags]
          simp [session_deltas]
        have hzero : flags = 0 :: ((deltasFromPrev t rest).map
            fun g : Int => if g > 1800 then (1 : Nat) else 0) := by
          rw [hflags2]; norm_num
        have hbound : ∀ x ∈ (deltasFromPrev t rest).map
            (fun g : Int => if g > 1800 then (1 : Nat) else 0), x ≤ 1 := by
          intro x hx
          rcases List.mem_map.mp hx with ⟨g, _, rfl⟩
          by_cases hg : g > 1800 <;> simp [hg]
        rw [hzero] at ha
        simp only [List.take_succ_cons, List.sum_cons, Nat.zero_add] at ha
        calc a = (((deltasFromPrev t rest).map
              (fun g : Int => if g > 1800 then (1 : Nat) else 0)).take i).sum := ha.symm
          _ ≤ (((deltasFromPrev t rest).map
              (fun g : Int => if g > 1800 then (1 : Nat) else 0)).take i).length := by
              simpa using sum_le_length_of_le_one _ fun x hx =>
                hbound x (List.mem_of_mem_take hx)
          _ ≤ i := by simp [List.length_take]

/-- C3 witnessed at three events at 0 s, 600 s and 3000 s: only the second
gap (2400 s) crosses the threshold, giving ids 0, 0, 1. -/
theorem session_ids_spec_witness :
    (session_ids [0, 600, 3000]).length = 3
    ∧ (session_ids [0, 600, 3000]).head? = some 0
    ∧ session_ids [0, 600, 3000] = [0, 0, 1] :=
  ⟨(session_ids_spec [0, 600, 3000] (by decide)).1,
   (session_ids_spec [0, 600, 3000] (by decide)).2.1, by decide⟩
